import Mathlib

/-!
Shallow embedding of `src/kernel-build.py` (Gentoo kernel builder).

The script's side effects are modelled as a trace of `Event`s (external
commands executed via `subprocess.run`, `shutil.copy2` file copies, and
`os.makedirs` directory creations).  Control flow distinguishes three
outcomes of a Python block, mirroring Python's exception hierarchy:
normal return, a catchable `Exception`, and `SystemExit` (raised by
`sys.exit`, which is *not* a subclass of `Exception` and therefore
passes through `except Exception` handlers while still running
`finally` blocks).

Environment structures (`Env`, `VEnv`, …) capture the facts about the
outside world each function branches on: whether files exist, the exit
codes of the external commands, which directories exist on a mounted
device.  Logging is modelled as a no-op (the spec treats the log sink
as out of scope).
-/

namespace KB

/-- One observable side effect of the script: an external command
invocation (`subprocess.run`), a `shutil.copy2`, or an `os.makedirs`. -/
inductive Event where
  | run (cmd : List String)
  | copy (src dst : String)
  | makeDirs (path : String)
deriving DecidableEq

/-- Outcome of executing a block of the script: normal completion, a
catchable `Exception`, or `SystemExit code` from `sys.exit(code)`
(uncatchable by `except Exception`, but `finally` still runs). -/
inductive Outcome where
  | ok
  | exc
  | exit (code : Nat)
deriving DecidableEq

/-- Sequencing of two effectful blocks: the second runs only when the
first completed normally; events accumulate. -/
def seqE (a : List Event × Outcome) (k : Unit → List Event × Outcome) :
    List Event × Outcome :=
  match a.2 with
  | Outcome.ok => (a.1 ++ (k ()).1, (k ()).2)
  | o => (a.1, o)

/-- `os.path.join` for the relative second arguments used by the script. -/
def pjoin (a b : String) : String := a ++ "/" ++ b

/-- The configuration fields the `Kernel` class reads (lines 119–126). -/
structure KConfig where
  linuxDir : String
  backupConfigDir : String
  bootMountpoint : String
  initramfsArgs : List String
  buildJobs : Nat
deriving DecidableEq

/-- A flash-device target (`BootDevice.__init__`, lines 341–349). -/
structure Device where
  device : String
  partition : String
  mountpoint : String
deriving DecidableEq

/-- The facts about the outside world that one per-device installation
branches on: the `Kernel._built` flag, file existence checks, and the
exit codes of the external commands it runs.  `deviceGrubCode` is the
exit status of the device-side `grub-mkconfig` (lines 431–440): the
script only logs it, so no definition below depends on it. -/
structure Env where
  built : Bool
  bzImageExists : Bool
  mountOk : Bool
  modulesInstallCode : Nat
  genkernelCode : Nat
  hostGrubCode : Nat
  deviceGrubCode : Nat
  bootExists : Bool
  systemMapExists : Bool
  vmlinuzExists : Bool
  initramfsExists : Bool
  existingDirs : List String
deriving DecidableEq

/-- Does an event run a command whose argv head is `h`? -/
def headIs (h : String) (e : Event) : Bool :=
  match e with
  | Event.run (c :: _) => c == h
  | _ => false

namespace Kernel

/-- `Kernel.run` with the default `check=True` (lines 204–229): logs
and runs the command; a non-zero exit code triggers `sys.exit(code)`. -/
def runCmd (cmd : List String) (code : Nat) : List Event × Outcome :=
  ([Event.run cmd], if code = 0 then Outcome.ok else Outcome.exit code)

/-- `Kernel.is_kernel_built` (lines 280–291): the in-process `_built`
flag, else the on-disk `arch/x86/boot/bzImage` heuristic. -/
def is_kernel_built (env : Env) : Bool :=
  env.built || env.bzImageExists

/-- `Kernel.rename_kernel_files` (lines 311–339): copies each existing
artifact in the boot mountpoint to its versioned name.  `System.map`
and `vmlinuz` get `-<version>-<timestamp>` appended to the whole name;
the initramfs `initramfs-<version>.img` becomes
`initramfs-<version>-<timestamp>.img`.  Copy errors are logged and
ignored, so the function never raises. -/
def rename_kernel_files (cfg : KConfig) (env : Env) (kv dt : String) :
    List Event :=
  let boot := cfg.bootMountpoint
  if !env.bootExists then []
  else
    (if env.systemMapExists then
      [Event.copy (pjoin boot "System.map")
        (pjoin boot ("System.map" ++ "-" ++ kv ++ "-" ++ dt))] else [])
    ++ (if env.vmlinuzExists then
      [Event.copy (pjoin boot "vmlinuz")
        (pjoin boot ("vmlinuz" ++ "-" ++ kv ++ "-" ++ dt))] else [])
    ++ (if env.initramfsExists then
      [Event.copy (pjoin boot ("initramfs-" ++ kv ++ ".img"))
        (pjoin boot ("initramfs-" ++ kv ++ "-" ++ dt ++ ".img"))] else [])

/-- `Kernel.install` (lines 293–309): precondition check, then
`make modules_install install`, `genkernel … initramfs`, the renames,
and `grub-mkconfig -o /boot/grub/grub.cfg` — each via `Kernel.run`
with `check=True`, so a failing command exits the process. -/
def install (cfg : KConfig) (env : Env) (kv dt : String) :
    List Event × Outcome :=
  if !is_kernel_built env then ([], Outcome.exit 1)
  else
    seqE (runCmd ["make", "modules_install", "install"]
        env.modulesInstallCode) fun _ =>
    seqE (runCmd (["genkernel"] ++ cfg.initramfsArgs ++ ["initramfs"])
        env.genkernelCode) fun _ =>
    seqE (rename_kernel_files cfg env kv dt, Outcome.ok) fun _ =>
    runCmd ["grub-mkconfig", "-o", "/boot/grub/grub.cfg"] env.hostGrubCode

end Kernel

namespace BootDevice

/-- `BootDevice.umount` (lines 370–380): best-effort `umount`; every
exception is caught and logged, so it always completes normally. -/
def umount (d : Device) : List Event × Outcome :=
  ([Event.run ["umount", d.mountpoint]], Outcome.ok)

/-- `BootDevice.mount` (lines 357–368): `mount <device><partition>
<mountpoint>` with `check=True`; on failure the exception is logged
and re-raised (a catchable `Exception`). -/
def mount (d : Device) (ok : Bool) : List Event × Outcome :=
  ([Event.run ["mount", d.device ++ d.partition, d.mountpoint]],
    if ok then Outcome.ok else Outcome.exc)

/-- `BootDevice.show_boot` (lines 382–391): `ls -la <mountpoint>`,
all exceptions caught. -/
def show_boot (d : Device) : List Event × Outcome :=
  ([Event.run ["ls", "-la", d.mountpoint]], Outcome.ok)

/-- The candidate grub directories probed by `find_grub_path`
(lines 395–400), in order. -/
def grubCandidates (mp : String) : List String :=
  [pjoin mp "grub", pjoin mp "boot/grub", pjoin mp "grub2",
    pjoin mp "boot/grub2"]

/-- The directory part of `BootDevice.find_grub_path` (lines 393–408):
first existing candidate, else the default `<mountpoint>/grub`. -/
def findGrubDir (mp : String) (existingDirs : List String) : String :=
  match (grubCandidates mp).find? (fun p => existingDirs.contains p) with
  | some p => p
  | none => pjoin mp "grub"

/-- `BootDevice.find_grub_path` (lines 393–408): the chosen directory
with `grub.cfg` appended. -/
def find_grub_path (mp : String) (existingDirs : List String) : String :=
  pjoin (findGrubDir mp existingDirs) "grub.cfg"

/-- The device-side grub.cfg regeneration inside `install_kernel`
(lines 424–440): create the grub directory if missing, then run
`grub-mkconfig -o <path>`; a non-zero exit code is only logged. -/
def deviceRegen (d : Device) (env : Env) : List Event × Outcome :=
  let dir := findGrubDir d.mountpoint env.existingDirs
  ((if env.existingDirs.contains dir then [] else [Event.makeDirs dir])
    ++ [Event.run ["grub-mkconfig", "-o", pjoin dir "grub.cfg"]],
    Outcome.ok)

/-- `BootDevice.install_kernel` (lines 410–444): defensive `umount`,
`mount`, listing, `kernel.install()`, listing, device-side grub.cfg
regeneration — wrapped in `try/except Exception` (which converts a
catchable exception into a logged normal return, but lets
`SystemExit` through) and `finally: self.umount()`. -/
def install_kernel (cfg : KConfig) (d : Device) (env : Env)
    (kv dt : String) : List Event × Outcome :=
  let body :=
    seqE (umount d) fun _ =>
    seqE (mount d env.mountOk) fun _ =>
    seqE (show_boot d) fun _ =>
    seqE (Kernel.install cfg env kv dt) fun _ =>
    seqE (show_boot d) fun _ =>
    deviceRegen d env
  let caught :=
    match body.2 with
    | Outcome.exc => Outcome.ok
    | o => o
  (body.1 ++ (umount d).1, caught)

end BootDevice

/-- The `install` branch of `main` (lines 472–480): iterate the flash
devices in order, running `install_kernel` on each; a `SystemExit`
escaping one device's installation aborts the loop (and the process)
with that code, otherwise the loop finishes (`none`). -/
def installLoop (cfg : KConfig) (kv dt : String) :
    List (Device × Env) → List Event × Option Nat
  | [] => ([], none)
  | (d, e) :: rest =>
    let r := BootDevice.install_kernel cfg d e kv dt
    match r.2 with
    | Outcome.exit c => (r.1, some c)
    | _ =>
      let s := installLoop cfg kv dt rest
      (r.1 ++ s.1, s.2)

/-- The three subcommands of `main` (line 450). -/
inductive Command where
  | build
  | configure
  | install
deriving DecidableEq

/-- One top-level run of `main` (lines 446–489): whether configuration
loading succeeded, whether a `KeyboardInterrupt` arrived during the
command, which command ran, the exit code of the build command's
`make`, whether `make nconfig` succeeded, the kernel environment seen
by the `install` pre-check, and the per-device environments. -/
structure Scenario where
  configLoadOk : Bool
  interrupted : Bool
  cmd : Command
  buildCode : Nat
  nconfigOk : Bool
  preEnv : Env
  devices : List (Device × Env)

/-- The process exit status of `main` (lines 446–489).  Config-load
failure exits 1 (line 459); `KeyboardInterrupt` exits 130 (line 486);
`build` propagates `make`'s exit code via `Kernel.run`'s
`sys.exit(returncode)` (line 223), which `except Exception` does not
catch; `configure` exits 1 on any `nconfig` failure (line 262, the
`CalledProcessError` is caught and `sys.exit(1)` runs); `install`
pre-checks `is_kernel_built` (line 468, exit 1), then runs the device
loop — completing the loop falls off `main`, exit status 0. -/
def mainRun (cfg : KConfig) (kv dt : String) (s : Scenario) : Nat :=
  if !s.configLoadOk then 1
  else if s.interrupted then 130
  else
    match s.cmd with
    | Command.build => if s.buildCode = 0 then 0 else s.buildCode
    | Command.configure => if s.nconfigOk then 0 else 1
    | Command.install =>
      if !Kernel.is_kernel_built s.preEnv then 1
      else
        match (installLoop cfg kv dt s.devices).2 with
        | some c => c
        | none => 0

/-! ### Configuration backup (`Kernel.backup_config`, lines 231–243)

The relevant filesystem fragment is modelled as an association list
from paths to file contents, youngest entry first; `shutil.copy2`
overwrites an existing destination without any check, which the
shadowing write models. -/

/-- A filesystem fragment: path ↦ content, youngest entry first. -/
abbrev Fs := List (String × String)

/-- Read a file: the youngest entry for the path wins. -/
def fsGet (fs : Fs) (p : String) : Option String :=
  match fs with
  | [] => none
  | q :: rest => if q.1 = p then some q.2 else fsGet rest p

/-- Write (or silently overwrite) a file, as `shutil.copy2` does. -/
def fsWrite (fs : Fs) (p v : String) : Fs := (p, v) :: fs

/-- `os.path.join(self.linux_dir, ".config")` (line 232). -/
def configPath (cfg : KConfig) : String := pjoin cfg.linuxDir ".config"

/-- The backup destination for wall-clock time `now` (formatted
`%Y.%m.%d-%H:%M:%S`, second resolution — line 236–237). -/
def backupPath (cfg : KConfig) (now : String) : String :=
  pjoin cfg.backupConfigDir (".config." ++ now)

/-- `Kernel.backup_config` (lines 231–243): if `.config` exists, copy
it to `<backup_config_dir>/.config.<now>` with `shutil.copy2` (which
overwrites silently); otherwise log and skip.  Copy errors are caught
and logged, never raised. -/
def backup_config (cfg : KConfig) (fs : Fs) (now : String) : Fs :=
  match fsGet fs (configPath cfg) with
  | some content => fsWrite fs (backupPath cfg now) content
  | none => fs

/-! ### Kernel version resolution (`Kernel.kernel_version`, lines
161–196)

The property caches its result in `self._kernel_version`, guarded by
Python truthiness (`if not self._kernel_version`), so `None` *and* the
empty string both count as unresolved.  The two detection sources are
the release-string file `include/config/kernel.release` and a scan of
the linked `vmlinux` binary for a `Linux version …` banner. -/

/-- The facts version detection branches on: presence and content of
the release file, whether reading it succeeds, presence of `vmlinux`,
and the outcome of the banner scan (`scanOk` = subprocess returncode 0
with non-empty stdout). -/
structure VEnv where
  relPresent : Bool
  relReadOk : Bool
  relContent : String
  vmlinuxPresent : Bool
  scanOk : Bool
  scanStdout : String
deriving DecidableEq

/-- Python `str.strip()` with no argument: drop leading and trailing
whitespace. -/
def pyStrip (s : String) : String :=
  String.mk (((s.data.dropWhile Char.isWhitespace).reverse.dropWhile
    Char.isWhitespace).reverse)

/-- Python `str.split()` with no argument: split on whitespace runs,
dropping empty fields. -/
def pySplitWs (s : String) : List String :=
  (s.split (fun c => c.isWhitespace)).filter (fun t => !(t = ""))

/-- First line of a string, as `s.split("\n")[0]` on a non-empty
split result. -/
def firstLine (s : String) : String := (s.splitOn "\n").headD ""

/-- The detection computation of `kernel_version` (lines 163–195),
run only when the cache is falsy: release file first (read errors
degrade to "unknown"), then the `vmlinux` banner scan (third
whitespace-separated token of the first output line), else the
sentinel "unknown". -/
def detectVersion (e : VEnv) : String :=
  if e.relPresent then
    if e.relReadOk then pyStrip e.relContent else "unknown"
  else if e.vmlinuxPresent then
    if e.scanOk then
      let parts := pySplitWs (firstLine (pyStrip e.scanStdout))
      if 3 ≤ parts.length then parts.getD 2 "unknown" else "unknown"
    else "unknown"
  else "unknown"

/-- Python truthiness of the `_kernel_version` cache field: `None`
and `""` are falsy. -/
def cacheTruthy (c : Option String) : Bool :=
  match c with
  | none => false
  | some s => !(s = "")

/-- One call of the `kernel_version` property (lines 161–196): given
the cache field, return the value, the new cache field, and whether
detection ran. -/
def kernel_version_call (e : VEnv) (cache : Option String) :
    String × Option String × Bool :=
  if cacheTruthy cache then (cache.getD "", cache, false)
  else
    let v := detectVersion e
    (v, some v, true)

/-! ### The spec's versioned-naming scheme, for comparison with
`rename_kernel_files`. -/

/-- Split a character list at its last `'.'`, if any. -/
def lastDotSplit : List Char → Option (List Char × List Char)
  | [] => none
  | c :: cs =>
    match lastDotSplit cs with
    | some (a, b) => some (c :: a, b)
    | none => if c = '.' then some ([], cs) else none

/-- Modelled from the spec's words (claim side, for refinement
comparison only): "if the original filename has an extension, the
versioned name is the original name with the suffix `-v-t` inserted
immediately before the extension; if the original filename has no
extension, the versioned name is the original name with `-v-t`
appended directly." -/
def specVersionedName (name v t : String) : String :=
  match lastDotSplit name.data with
  | some (stem, ext) =>
    String.mk stem ++ "-" ++ v ++ "-" ++ t ++ "." ++ String.mk ext
  | none => name ++ "-" ++ v ++ "-" ++ t

/-! ### Concrete fixtures used by counterexamples and witnesses. -/

/-- A per-device environment in which the artifact-install commands
all succeed and the kernel counts as built; mount success, grub
directory layout and the device-side grub-mkconfig status stay free. -/
def goodArtifact (e : Env) : Prop :=
  Kernel.is_kernel_built e = true ∧ e.modulesInstallCode = 0 ∧
    e.genkernelCode = 0 ∧ e.hostGrubCode = 0

instance (e : Env) : Decidable (goodArtifact e) := by
  unfold goodArtifact; infer_instance

/-- A concrete configuration. -/
def cfg0 : KConfig :=
  { linuxDir := "/usr/src/linux", backupConfigDir := "/var/backup",
    bootMountpoint := "/boot", initramfsArgs := ["--mountboot"],
    buildJobs := 4 }

/-- A concrete flash-device target. -/
def dev0 : Device :=
  { device := "/dev/sdb", partition := "1", mountpoint := "/boot" }

/-- An environment where every step succeeds and every artifact file
exists. -/
def envAll : Env :=
  { built := true, bzImageExists := true, mountOk := true,
    modulesInstallCode := 0, genkernelCode := 0, hostGrubCode := 0,
    deviceGrubCode := 0, bootExists := true, systemMapExists := true,
    vmlinuzExists := true, initramfsExists := true,
    existingDirs := ["/boot/grub"] }

/-- Like `envAll` but `genkernel` fails with exit code 2. -/
def envGenkernelFails : Env :=
  { envAll with genkernelCode := 2 }

/-- Like `envAll` but the `mount` command fails. -/
def envMountFails : Env :=
  { envAll with mountOk := false }

/-- Like `envAll` but neither the in-process flag nor the on-disk
`bzImage` heuristic reports a build. -/
def envNotBuilt : Env :=
  { envAll with built := false, bzImageExists := false }

/-- Like `envAll` but no grub directory exists on the mounted device. -/
def envNoGrub : Env :=
  { envAll with existingDirs := [] }

/-- A second flash-device target on the same mountpoint. -/
def devB : Device :=
  { device := "/dev/sdc", partition := "1", mountpoint := "/boot" }

/-- A device target mounted away from the host's `/boot`, with the
alternate `boot/grub` layout. -/
def dev1 : Device :=
  { device := "/dev/sdd", partition := "1", mountpoint := "/mnt/flash" }

/-- Environment for `dev1`: everything succeeds and the device carries
a `boot/grub` directory. -/
def env1 : Env :=
  { envAll with existingDirs := ["/mnt/flash/boot/grub"] }

/-- A session whose single device fails to mount (the failure is
caught inside `install_kernel`). -/
def scMountFail : Scenario :=
  { configLoadOk := true, interrupted := false, cmd := Command.install,
    buildCode := 0, nconfigOk := true, preEnv := envAll,
    devices := [(dev0, envMountFails)] }

/-- A two-device session whose first device fails to mount and whose
second succeeds. -/
def scTwoDevices : Scenario :=
  { configLoadOk := true, interrupted := false, cmd := Command.install,
    buildCode := 0, nconfigOk := true, preEnv := envAll,
    devices := [(dev0, envMountFails), (devB, envAll)] }

/-- A configuration staging boot files away from `/boot`. -/
def cfgMnt : KConfig :=
  { cfg0 with bootMountpoint := "/mnt/stage" }

/-- A run whose configuration loading fails. -/
def scConfigFail : Scenario :=
  { scMountFail with configLoadOk := false }

/-- A run interrupted by the user (`KeyboardInterrupt`). -/
def scInterrupt : Scenario :=
  { scMountFail with interrupted := true }

/-- A release file whose content strips to the empty string. -/
def vEmpty : VEnv :=
  { relPresent := true, relReadOk := true, relContent := "",
    vmlinuxPresent := false, scanOk := false, scanStdout := "" }

/-- A release file carrying a normal version string. -/
def vNormal : VEnv :=
  { relPresent := true, relReadOk := true, relContent := "6.6.1\n",
    vmlinuxPresent := false, scanOk := false, scanStdout := "" }

/-- Neither detection source is available. -/
def vNone : VEnv :=
  { relPresent := false, relReadOk := false, relContent := "",
    vmlinuxPresent := false, scanOk := false, scanStdout := "" }

end KB

namespace KB

/-! ### Helper lemmas on traces -/

lemma seqE_ok (es : List Event) (k : Unit → List Event × Outcome) :
    seqE (es, Outcome.ok) k = (es ++ (k ()).1, (k ()).2) := rfl

lemma seqE_exc (es : List Event) (k : Unit → List Event × Outcome) :
    seqE (es, Outcome.exc) k = (es, Outcome.exc) := rfl

lemma seqE_exit (es : List Event) (c : Nat)
    (k : Unit → List Event × Outcome) :
    seqE (es, Outcome.exit c) k = (es, Outcome.exit c) := rfl

lemma countP_seqE (p : Event → Bool) (a : List Event × Outcome)
    (k : Unit → List Event × Outcome) :
    ((seqE a k).1).countP p =
      a.1.countP p +
        (match a.2 with
          | Outcome.ok => ((k ()).1).countP p
          | _ => 0) := by
  obtain ⟨es, o⟩ := a
  cases o <;> simp [seqE, List.countP_append]

lemma rename_countP (cfg : KConfig) (env : Env) (kv dt h : String) :
    (Kernel.rename_kernel_files cfg env kv dt).countP (headIs h) = 0 := by
  unfold Kernel.rename_kernel_files
  by_cases h0 : env.bootExists <;>
    by_cases h1 : env.systemMapExists <;>
      by_cases h2 : env.vmlinuzExists <;>
        by_cases h3 : env.initramfsExists <;>
          simp [h0, h1, h2, h3, headIs, List.countP_append,
            List.countP_cons]

lemma install_countP (cfg : KConfig) (env : Env) (kv dt h : String)
    (hmk : ("make" == h) = false) (hgk : ("genkernel" == h) = false)
    (hgc : ("grub-mkconfig" == h) = false) :
    ((Kernel.install cfg env kv dt).1).countP (headIs h) = 0 := by
  unfold Kernel.install Kernel.runCmd
  by_cases hb : Kernel.is_kernel_built env
  · by_cases h1 : env.modulesInstallCode = 0 <;>
      by_cases h2 : env.genkernelCode = 0 <;>
        by_cases h3 : env.hostGrubCode = 0 <;>
          simp [hb, h1, h2, h3, seqE, headIs, List.countP_append,
            List.countP_cons, rename_countP, hmk, hgk, hgc]
  · simp [hb]

lemma deviceRegen_countP (d : Device) (env : Env) (h : String)
    (hgc : ("grub-mkconfig" == h) = false) :
    ((BootDevice.deviceRegen d env).1).countP (headIs h) = 0 := by
  unfold BootDevice.deviceRegen
  by_cases hc :
      env.existingDirs.contains (BootDevice.findGrubDir d.mountpoint
        env.existingDirs) <;>
    simp [hc, headIs, List.countP_append, List.countP_cons, hgc]

end KB

namespace KB

lemma showBoot_countP (d : Device) (h : String)
    (hls : ("ls" == h) = false) :
    ((BootDevice.show_boot d).1).countP (headIs h) = 0 := by
  simp [BootDevice.show_boot, headIs, hls]

/-- The trace of the part of `install_kernel` that follows a
successful mount has no `mount` or `umount` command in it. -/
lemma afterMount_countP (cfg : KConfig) (d : Device) (env : Env)
    (kv dt h : String) (hls : ("ls" == h) = false)
    (hmk : ("make" == h) = false) (hgk : ("genkernel" == h) = false)
    (hgc : ("grub-mkconfig" == h) = false) :
    ((seqE (BootDevice.show_boot d) fun _ =>
      seqE (Kernel.install cfg env kv dt) fun _ =>
      seqE (BootDevice.show_boot d) fun _ =>
      BootDevice.deviceRegen d env).1).countP (headIs h) = 0 := by
  rw [countP_seqE, countP_seqE, countP_seqE]
  cases h2 : (Kernel.install cfg env kv dt).2 <;>
    simp [h2, BootDevice.show_boot, headIs, hls, List.countP_cons,
      install_countP cfg env kv dt h hmk hgk hgc,
      deviceRegen_countP d env h hgc]

/-- Trace shape of one `install_kernel` run: a defensive `umount`
first, then the `mount` attempt, then a middle section free of mount
and umount commands, and one final `umount` from the `finally`
block — on every exit path. -/
lemma install_kernel_shape (cfg : KConfig) (d : Device) (env : Env)
    (kv dt : String) :
    ∃ mid, (BootDevice.install_kernel cfg d env kv dt).1 =
        Event.run ["umount", d.mountpoint] ::
          Event.run ["mount", d.device ++ d.partition, d.mountpoint] ::
            (mid ++ [Event.run ["umount", d.mountpoint]]) ∧
      mid.countP (headIs "mount") = 0 ∧
      mid.countP (headIs "umount") = 0 := by
  unfold BootDevice.install_kernel
  rcases hm : env.mountOk with hf | ht
  · refine ⟨[], ?_, rfl, rfl⟩
    simp [BootDevice.umount, BootDevice.mount, hm, seqE]
  · refine ⟨(seqE (BootDevice.show_boot d) fun _ =>
      seqE (Kernel.install cfg env kv dt) fun _ =>
      seqE (BootDevice.show_boot d) fun _ =>
      BootDevice.deviceRegen d env).1, ?_, ?_, ?_⟩
    · simp [BootDevice.umount, BootDevice.mount, hm, seqE_ok]
    · exact afterMount_countP cfg d env kv dt "mount" rfl rfl rfl rfl
    · exact afterMount_countP cfg d env kv dt "umount" rfl rfl rfl rfl

/-- Every `install_kernel` run attempts the mount exactly once and
runs `umount` exactly twice. -/
lemma install_kernel_counts (cfg : KConfig) (d : Device) (env : Env)
    (kv dt : String) :
    ((BootDevice.install_kernel cfg d env kv dt).1).countP
        (headIs "mount") = 1 ∧
      ((BootDevice.install_kernel cfg d env kv dt).1).countP
        (headIs "umount") = 2 := by
  obtain ⟨mid, htr, hm, hu⟩ := install_kernel_shape cfg d env kv dt
  rw [htr]
  constructor <;>
    simp [List.countP_cons, List.countP_append, hm, hu, headIs]

end KB

namespace KB

lemma install_outcome_good (cfg : KConfig) (env : Env) (kv dt : String)
    (hg : goodArtifact env) :
    (Kernel.install cfg env kv dt).2 = Outcome.ok := by
  obtain ⟨hb, h1, h2, h3⟩ := hg
  unfold Kernel.install Kernel.runCmd
  simp [hb, h1, h2, h3, seqE]

/-- With the artifact-install commands succeeding, one per-device
installation always completes normally — whether or not the mount
succeeded (a mount failure is a caught `Exception`). -/
lemma install_kernel_ok (cfg : KConfig) (d : Device) (env : Env)
    (kv dt : String) (hg : goodArtifact env) :
    (BootDevice.install_kernel cfg d env kv dt).2 = Outcome.ok := by
  have hio := install_outcome_good cfg env kv dt hg
  unfold BootDevice.install_kernel
  cases hm : env.mountOk
  · simp [BootDevice.umount, BootDevice.mount, hm, seqE]
  · rcases hi : Kernel.install cfg env kv dt with ⟨esI, oI⟩
    rw [hi] at hio
    simp only at hio
    subst hio
    simp [BootDevice.umount, BootDevice.mount, BootDevice.show_boot,
      hm, hi, seqE, BootDevice.deviceRegen]

/-- A session whose artifact-install commands all succeed finishes the
whole device list (no `SystemExit`) and attempts exactly one mount per
device, regardless of which mounts fail. -/
lemma installLoop_good (cfg : KConfig) (kv dt : String) :
    ∀ ds : List (Device × Env), (∀ p ∈ ds, goodArtifact p.2) →
      (installLoop cfg kv dt ds).2 = none ∧
        ((installLoop cfg kv dt ds).1).countP (headIs "mount") =
          ds.length
  | [], _ => by simp [installLoop]
  | (d, e) :: rest, h => by
    have hok := install_kernel_ok cfg d e kv dt (h (d, e) (by simp))
    have ih := installLoop_good cfg kv dt rest
      (fun p hp => h p (by simp [hp]))
    have hc := (install_kernel_counts cfg d e kv dt).1
    simp only [installLoop, hok, List.countP_append, List.length_cons]
    refine ⟨ih.1, ?_⟩
    rw [hc, ih.2]
    omega

lemma deviceRegen_mem (d : Device) (env : Env) :
    Event.run ["grub-mkconfig", "-o",
        BootDevice.find_grub_path d.mountpoint env.existingDirs] ∈
      (BootDevice.deviceRegen d env).1 := by
  unfold BootDevice.deviceRegen BootDevice.find_grub_path
  by_cases hc : env.existingDirs.contains
      (BootDevice.findGrubDir d.mountpoint env.existingDirs) <;>
    simp [hc, pjoin]

lemma install_host_regen_mem (cfg : KConfig) (env : Env)
    (kv dt : String) (hb : Kernel.is_kernel_built env = true)
    (h1 : env.modulesInstallCode = 0) (h2 : env.genkernelCode = 0) :
    Event.run ["grub-mkconfig", "-o", "/boot/grub/grub.cfg"] ∈
      (Kernel.install cfg env kv dt).1 := by
  unfold Kernel.install Kernel.runCmd
  simp [hb, h1, h2, seqE]

/-- With a successful mount and successful artifact commands, the
per-device trace contains the device-side regeneration command aimed
at the discovered grub path. -/
lemma install_kernel_device_regen_mem (cfg : KConfig) (d : Device)
    (env : Env) (kv dt : String) (hm : env.mountOk = true)
    (hg : goodArtifact env) :
    Event.run ["grub-mkconfig", "-o",
        BootDevice.find_grub_path d.mountpoint env.existingDirs] ∈
      (BootDevice.install_kernel cfg d env kv dt).1 := by
  have hio := install_outcome_good cfg env kv dt hg
  unfold BootDevice.install_kernel
  rcases hi : Kernel.install cfg env kv dt with ⟨esI, oI⟩
  rw [hi] at hio
  simp only at hio
  subst hio
  have hmem := deviceRegen_mem d env
  simp [BootDevice.umount, BootDevice.mount, BootDevice.show_boot,
    hm, hi, seqE]
  tauto

end KB

namespace KB

/-- A fully successful mounted installation runs `genkernel` exactly
once and `make` exactly once. -/
lemma install_kernel_artifact_counts (cfg : KConfig) (d : Device)
    (env : Env) (kv dt : String) (hm : env.mountOk = true)
    (hg : goodArtifact env) :
    ((BootDevice.install_kernel cfg d env kv dt).1).countP
        (headIs "genkernel") = 1 ∧
      ((BootDevice.install_kernel cfg d env kv dt).1).countP
        (headIs "make") = 1 := by
  obtain ⟨hb, h1, h2, h3⟩ := hg
  unfold BootDevice.install_kernel Kernel.install Kernel.runCmd
  constructor <;>
    simp [hm, hb, h1, h2, h3, seqE, BootDevice.umount,
      BootDevice.mount, BootDevice.show_boot, headIs,
      List.countP_append, List.countP_cons, rename_countP,
      deviceRegen_countP d env "genkernel" rfl,
      deviceRegen_countP d env "make" rfl]

/-- In a session whose mounts and artifact commands all succeed, the
artifact-install step is re-executed for every device: `genkernel`
runs once per device. -/
lemma installLoop_genkernel (cfg : KConfig) (kv dt : String) :
    ∀ ds : List (Device × Env),
      (∀ p ∈ ds, p.2.mountOk = true ∧ goodArtifact p.2) →
      ((installLoop cfg kv dt ds).1).countP (headIs "genkernel") =
        ds.length
  | [], _ => by simp [installLoop]
  | (d, e) :: rest, h => by
    obtain ⟨hm, hg⟩ := h (d, e) (by simp)
    have hok := install_kernel_ok cfg d e kv dt hg
    have ih := installLoop_genkernel cfg kv dt rest
      (fun p hp => h p (by simp [hp]))
    have hc := (install_kernel_artifact_counts cfg d e kv dt hm hg).1
    simp only [installLoop, hok, List.countP_append, List.length_cons]
    rw [hc, ih]
    omega

/-! ### Filesystem helper lemmas -/

lemma fsGet_fsWrite_same (fs : Fs) (p v : String) :
    fsGet (fsWrite fs p v) p = some v := by
  simp [fsGet, fsWrite]

lemma fsGet_fsWrite_other (fs : Fs) (p v q : String) (h : q ≠ p) :
    fsGet (fsWrite fs p v) q = fsGet fs q := by
  have hpq : ¬p = q := fun hh => h (Eq.symm hh)
  simp [fsGet, fsWrite, hpq]

end KB

namespace KB

/-! ### Claim theorems -/

/-- C1 (counterexample): the claim "per device, the number of mount
invocations equals the number of unmount invocations" is false on the
code: on a fully successful installation of one device, the trace
holds one `mount` invocation but two `umount` invocations, because
`install_kernel` runs a defensive `umount` (line 412) before the
`mount` in addition to the `finally` unmount (line 444). -/
theorem C1_mount_equals_unmount_counterexample :
    ¬((BootDevice.install_kernel cfg0 dev0 envAll "6.6.1" "T").1.countP
        (headIs "mount") =
      (BootDevice.install_kernel cfg0 dev0 envAll "6.6.1" "T").1.countP
        (headIs "umount")) := by
  decide

/-- C1 (amended): for every device target and every execution of
`install_kernel`, the trace starts with one defensive `umount`, then
the single `mount` attempt, then a middle section containing no mount
or unmount invocation, and ends with exactly one `umount` from the
scope-guaranteed `finally` block — on every exit path (success,
caught exception, or propagating `SystemExit`).  Hence the device is
never left mounted, and per device the number of `umount` invocations
always equals the number of `mount` invocations plus one. -/
theorem C1_unmount_exactly_once_after_mount (cfg : KConfig)
    (d : Device) (env : Env) (kv dt : String) :
    (∃ mid, (BootDevice.install_kernel cfg d env kv dt).1 =
        Event.run ["umount", d.mountpoint] ::
          Event.run ["mount", d.device ++ d.partition, d.mountpoint] ::
            (mid ++ [Event.run ["umount", d.mountpoint]]) ∧
      mid.countP (headIs "mount") = 0 ∧
      mid.countP (headIs "umount") = 0) ∧
    ((BootDevice.install_kernel cfg d env kv dt).1).countP
        (headIs "umount") =
      ((BootDevice.install_kernel cfg d env kv dt).1).countP
        (headIs "mount") + 1 := by
  refine ⟨install_kernel_shape cfg d env kv dt, ?_⟩
  have h := install_kernel_counts cfg d env kv dt
  rw [h.1, h.2]

/-- C2 (counterexample): the claim that an error at any stage of one
target's installation is caught inside that target's boundary and
never aborts subsequent targets is false: in a two-target session
whose first target fails during initramfs generation (`genkernel`
exits 2), `Kernel.run` calls `sys.exit(2)` (line 223); `SystemExit`
is not an `Exception`, so the `except` of `install_kernel` (line 441)
does not catch it, the session aborts with exit code 2, and the
second target is never attempted (only one mount in the whole
session trace). -/
theorem C2_stage_error_aborts_session_counterexample :
    (installLoop cfg0 "v" "t"
        [(dev0, envGenkernelFails), (devB, envAll)]).2 = some 2 ∧
      ((installLoop cfg0 "v" "t"
        [(dev0, envGenkernelFails), (devB, envAll)]).1).countP
          (headIs "mount") = 1 := by
  decide

/-- C2 (amended): exceptions raised inside a target's installation
boundary — in particular a mount failure — are caught by
`install_kernel`'s `except Exception` and never abort the session:
whenever every target's artifact-install commands (module install,
initramfs generation, host grub.cfg regeneration) succeed, the
session completes the whole target list (no `SystemExit`) and every
one of the N targets is attempted (exactly N mount attempts), no
matter which mounts fail.  However, a failure of one of those
artifact-install commands is converted by `Kernel.run` into
`sys.exit(code)`, which is not caught by the boundary and aborts the
processing of subsequent targets. -/
theorem C2_caught_failures_isolated (cfg : KConfig) (kv dt : String)
    (ds : List (Device × Env)) (h : ∀ p ∈ ds, goodArtifact p.2) :
    (installLoop cfg kv dt ds).2 = none ∧
      ((installLoop cfg kv dt ds).1).countP (headIs "mount") =
        ds.length :=
  installLoop_good cfg kv dt ds h

/-- Witness for C2: a concrete two-target session whose first mount
fails still attempts both targets and completes. -/
theorem C2_caught_failures_isolated_w :
    (installLoop cfg0 "v" "t"
        [(dev0, envMountFails), (devB, envAll)]).2 = none ∧
      ((installLoop cfg0 "v" "t"
        [(dev0, envMountFails), (devB, envAll)]).1).countP
          (headIs "mount") = 2 :=
  C2_caught_failures_isolated cfg0 "v" "t"
    [(dev0, envMountFails), (devB, envAll)] (by decide)

/-- C3 (confirmed): when `is_kernel_built()` is false, `install()`
fails fast with `sys.exit(1)` (the "not built" error, lines 295–297)
and performs zero side effects: its event trace is empty — no
external command, no copy, no directory creation. -/
theorem C3_install_not_built_no_side_effects (cfg : KConfig)
    (env : Env) (kv dt : String)
    (h : Kernel.is_kernel_built env = false) :
    Kernel.install cfg env kv dt = ([], Outcome.exit 1) := by
  unfold Kernel.install
  simp [h]

/-- Witness for C3 at a concrete unbuilt environment. -/
theorem C3_install_not_built_no_side_effects_w :
    Kernel.is_kernel_built envNotBuilt = false ∧
      Kernel.install cfg0 envNotBuilt "v" "t" = ([], Outcome.exit 1) :=
  ⟨by decide,
    C3_install_not_built_no_side_effects cfg0 envNotBuilt "v" "t"
      (by decide)⟩

end KB

namespace KB

/-- C4 (counterexample): the claim "if the original filename has an
extension, the versioned name inserts `-<version>-<timestamp>`
immediately before the extension" is false on the code: `System.map`
carries the extension `.map`, so the claim requires
`System-6.6.1-T.map`, but `rename_kernel_files` (line 324) appends
the suffix to the whole name, producing `System.map-6.6.1-T`. -/
theorem C4_versioned_name_counterexample :
    Event.copy (pjoin "/boot" "System.map")
        (pjoin "/boot" ("System.map" ++ "-" ++ "6.6.1" ++ "-" ++ "T")) ∈
      Kernel.rename_kernel_files cfg0 envAll "6.6.1" "T" ∧
    specVersionedName "System.map" "6.6.1" "T" = "System-6.6.1-T.map" ∧
    ¬("System.map" ++ "-" ++ "6.6.1" ++ "-" ++ "T" =
      "System-6.6.1-T.map") := by
  decide

/-- C4 (amended): `rename_kernel_files` appends `-<version>-<timestamp>`
directly to the full original name for `System.map` and `vmlinuz`,
regardless of extension, and renames `initramfs-<version>.img` to
`initramfs-<version>-<timestamp>.img` (inserting only the timestamp
before the extension).  The spec's insert-before-extension rule
coincides with the code only for extensionless names such as
`vmlinuz`. -/
theorem C4_rename_appends_suffix (cfg : KConfig) (env : Env)
    (kv dt : String) (h0 : env.bootExists = true)
    (h1 : env.systemMapExists = true) (h2 : env.vmlinuzExists = true)
    (h3 : env.initramfsExists = true) :
    Kernel.rename_kernel_files cfg env kv dt =
      [Event.copy (pjoin cfg.bootMountpoint "System.map")
        (pjoin cfg.bootMountpoint
          ("System.map" ++ "-" ++ kv ++ "-" ++ dt)),
       Event.copy (pjoin cfg.bootMountpoint "vmlinuz")
        (pjoin cfg.bootMountpoint
          ("vmlinuz" ++ "-" ++ kv ++ "-" ++ dt)),
       Event.copy (pjoin cfg.bootMountpoint ("initramfs-" ++ kv ++ ".img"))
        (pjoin cfg.bootMountpoint
          ("initramfs-" ++ kv ++ "-" ++ dt ++ ".img"))] ∧
    specVersionedName "vmlinuz" kv dt = "vmlinuz" ++ "-" ++ kv ++ "-" ++ dt := by
  constructor
  · unfold Kernel.rename_kernel_files
    simp [h0, h1, h2, h3]
  · rfl

/-- Witness for C4 at concrete version and timestamp. -/
theorem C4_rename_appends_suffix_w :
    Kernel.rename_kernel_files cfg0 envAll "6.6.1" "T" =
      [Event.copy (pjoin cfg0.bootMountpoint "System.map")
        (pjoin cfg0.bootMountpoint
          ("System.map" ++ "-" ++ "6.6.1" ++ "-" ++ "T")),
       Event.copy (pjoin cfg0.bootMountpoint "vmlinuz")
        (pjoin cfg0.bootMountpoint
          ("vmlinuz" ++ "-" ++ "6.6.1" ++ "-" ++ "T")),
       Event.copy (pjoin cfg0.bootMountpoint ("initramfs-" ++ "6.6.1" ++ ".img"))
        (pjoin cfg0.bootMountpoint
          ("initramfs-" ++ "6.6.1" ++ "-" ++ "T" ++ ".img"))] ∧
    specVersionedName "vmlinuz" "6.6.1" "T" =
      "vmlinuz" ++ "-" ++ "6.6.1" ++ "-" ++ "T" :=
  C4_rename_appends_suffix cfg0 envAll "6.6.1" "T" rfl rfl rfl rfl

/-- C5 (counterexample): the claim "the exit status is non-zero
whenever any device's installation outcome is a failure" is false on
the code: a session whose single device fails to mount (the failure
is caught and logged inside `install_kernel`, line 441) falls off the
end of `main` and the process exit status is 0. -/
theorem C5_exit_zero_despite_device_failure_counterexample :
    mainRun cfg0 "v" "t" scMountFail = 0 ∧
      envMountFails.mountOk = false ∧
      ((BootDevice.install_kernel cfg0 dev0 envMountFails "v"
          "t").1).countP (headIs "mount") = 1 := by
  decide

/-- C5 (amended): the exit status of `main` is 1 when configuration
loading fails, 130 on user interruption, the failing `make`'s own
exit code when the `build` command's compile fails, 1 (not the
command's code) when `configure`'s `nconfig` fails, and 0 for an
`install` session whose artifact-install commands succeed — even
when some devices' installations failed on caught exceptions such as
mount errors, so a per-device failure is invisible in the exit
status, and the failure codes (1) are not mutually distinguishable. -/
theorem C5_exit_codes (cfg : KConfig) (kv dt : String) (s : Scenario) :
    (s.configLoadOk = false → mainRun cfg kv dt s = 1) ∧
    (s.configLoadOk = true → s.interrupted = true →
      mainRun cfg kv dt s = 130) ∧
    (s.configLoadOk = true → s.interrupted = false →
      s.cmd = Command.build → s.buildCode ≠ 0 →
      mainRun cfg kv dt s = s.buildCode) ∧
    (s.configLoadOk = true → s.interrupted = false →
      s.cmd = Command.configure → s.nconfigOk = false →
      mainRun cfg kv dt s = 1) ∧
    (s.configLoadOk = true → s.interrupted = false →
      s.cmd = Command.install →
      Kernel.is_kernel_built s.preEnv = true →
      (∀ p ∈ s.devices, goodArtifact p.2) →
      mainRun cfg kv dt s = 0) := by
  refine ⟨fun h1 => by simp [mainRun, h1],
    fun h1 h2 => by simp [mainRun, h1, h2],
    fun h1 h2 h3 h4 => by simp [mainRun, h1, h2, h3, h4],
    fun h1 h2 h3 h4 => by simp [mainRun, h1, h2, h3, h4],
    fun h1 h2 h3 h4 h5 => ?_⟩
  have hl := installLoop_good cfg kv dt s.devices h5
  simp [mainRun, h1, h2, h3, h4, hl.1]

/-- Witness for C5: concrete scenarios for the config-failure,
interruption and caught-device-failure cases. -/
theorem C5_exit_codes_w :
    mainRun cfg0 "v" "t" scConfigFail = 1 ∧
      mainRun cfg0 "v" "t" scInterrupt = 130 ∧
      mainRun cfg0 "v" "t" scTwoDevices = 0 :=
  ⟨(C5_exit_codes cfg0 "v" "t" scConfigFail).1 rfl,
    (C5_exit_codes cfg0 "v" "t" scInterrupt).2.1 rfl rfl,
    (C5_exit_codes cfg0 "v" "t" scTwoDevices).2.2.2.2 rfl rfl rfl rfl
      (by decide)⟩

end KB

namespace KB

/-- No command with a head other than `umount`, `mount`, `ls`, `make`,
`genkernel` or `grub-mkconfig` ever appears in an `install_kernel`
trace. -/
lemma install_kernel_countP_other (cfg : KConfig) (d : Device)
    (env : Env) (kv dt h : String) (hu : ("umount" == h) = false)
    (hm' : ("mount" == h) = false) (hls : ("ls" == h) = false)
    (hmk : ("make" == h) = false) (hgk : ("genkernel" == h) = false)
    (hgc : ("grub-mkconfig" == h) = false) :
    ((BootDevice.install_kernel cfg d env kv dt).1).countP
      (headIs h) = 0 := by
  have hmid := afterMount_countP cfg d env kv dt h hls hmk hgk hgc
  unfold BootDevice.install_kernel
  rw [List.countP_append, countP_seqE, countP_seqE]
  cases hm : env.mountOk <;>
    simp [BootDevice.umount, BootDevice.mount, hm, headIs, hu, hm',
      List.countP_cons, hmid]

/-- C6 (corrected statement): per-device bootloader handling consists
solely of one configuration regeneration (`grub-mkconfig` at the
discovered device path); no `grub-install` of any firmware mode (BIOS
or UEFI) is ever invoked; the device-side regeneration's exit status
(`deviceGrubCode`) has no effect on the run at all; and with a
successful mount and successful artifact commands the device's
installation completes normally with the regeneration command in its
trace. -/
theorem C6_single_regen_no_modes (cfg : KConfig) (d : Device)
    (env : Env) (kv dt : String) :
    ((BootDevice.install_kernel cfg d env kv dt).1).countP
        (headIs "grub-install") = 0 ∧
    (∀ c, BootDevice.install_kernel cfg d
        { env with deviceGrubCode := c } kv dt =
      BootDevice.install_kernel cfg d env kv dt) ∧
    (env.mountOk = true → goodArtifact env →
      (BootDevice.install_kernel cfg d env kv dt).2 = Outcome.ok ∧
      Event.run ["grub-mkconfig", "-o",
          BootDevice.find_grub_path d.mountpoint env.existingDirs] ∈
        (BootDevice.install_kernel cfg d env kv dt).1) :=
  ⟨install_kernel_countP_other cfg d env kv dt "grub-install"
      rfl rfl rfl rfl rfl rfl,
    fun _ => rfl,
    fun hm hg => ⟨install_kernel_ok cfg d env kv dt hg,
      install_kernel_device_regen_mem cfg d env kv dt hm hg⟩⟩

/-- Witness for C6 on a device mounted at `/mnt/flash` carrying a
`boot/grub` directory. -/
theorem C6_single_regen_no_modes_w :
    (BootDevice.install_kernel cfg0 dev1 env1 "v" "t").2 =
        Outcome.ok ∧
      Event.run ["grub-mkconfig", "-o",
          BootDevice.find_grub_path dev1.mountpoint
            env1.existingDirs] ∈
        (BootDevice.install_kernel cfg0 dev1 env1 "v" "t").1 :=
  (C6_single_regen_no_modes cfg0 dev1 env1 "v" "t").2.2 rfl (by decide)

/-- C6 (counterexample): the complete event trace of a fully
successful per-device installation, listed explicitly: it contains no
legacy-BIOS and no UEFI bootloader installation attempt (no
`grub-install` at all), so "both attempts are always tried" is false
on the code — the only bootloader-related commands are the two
`grub-mkconfig` configuration regenerations. -/
theorem C6_no_bios_uefi_attempts_counterexample :
    (BootDevice.install_kernel cfg0 dev0 envAll "6.6.1" "T").1 =
      [Event.run ["umount", "/boot"],
       Event.run ["mount", "/dev/sdb1", "/boot"],
       Event.run ["ls", "-la", "/boot"],
       Event.run ["make", "modules_install", "install"],
       Event.run ["genkernel", "--mountboot", "initramfs"],
       Event.copy "/boot/System.map" "/boot/System.map-6.6.1-T",
       Event.copy "/boot/vmlinuz" "/boot/vmlinuz-6.6.1-T",
       Event.copy "/boot/initramfs-6.6.1.img"
         "/boot/initramfs-6.6.1-T.img",
       Event.run ["grub-mkconfig", "-o", "/boot/grub/grub.cfg"],
       Event.run ["ls", "-la", "/boot"],
       Event.run ["grub-mkconfig", "-o", "/boot/grub/grub.cfg"],
       Event.run ["umount", "/boot"]] ∧
    ((BootDevice.install_kernel cfg0 dev0 envAll "6.6.1" "T").1).countP
      (headIs "grub-install") = 0 := by
  decide

/-- C7 (counterexample): two backups requested within the same
wall-clock second silently overwrite: after backing up a `.config`
with content "A" at time `2024.01.01-10:00:00`, changing `.config` to
"B" and backing up again at the same formatted time, the single
backup file holds "B" — the first backup is lost without any
uniqueness check (`shutil.copy2`, line 238, overwrites silently). -/
theorem C7_backup_overwrite_counterexample :
    fsGet (backup_config cfg0 [(configPath cfg0, "A")]
        "2024.01.01-10:00:00") (backupPath cfg0 "2024.01.01-10:00:00") =
      some "A" ∧
    fsGet (backup_config cfg0
        (fsWrite (backup_config cfg0 [(configPath cfg0, "A")]
            "2024.01.01-10:00:00") (configPath cfg0) "B")
        "2024.01.01-10:00:00") (backupPath cfg0 "2024.01.01-10:00:00") =
      some "B" := by
  decide

/-- C7 (amended): each `backup_config` invocation with a `.config`
present writes exactly one backup, named `.config.<date-time>` with
second resolution, leaving every other path unchanged — but the write
is a plain `shutil.copy2` with no uniqueness check, so a name
collision within the same second silently overwrites the earlier
backup.  When `.config` is absent, the backup is skipped and the
filesystem is untouched. -/
theorem C7_backup_timestamped_write (cfg : KConfig) (fs : Fs)
    (now : String) :
    (∀ content, fsGet fs (configPath cfg) = some content →
      fsGet (backup_config cfg fs now) (backupPath cfg now) =
          some content ∧
        ∀ p, p ≠ backupPath cfg now →
          fsGet (backup_config cfg fs now) p = fsGet fs p) ∧
    (fsGet fs (configPath cfg) = none →
      backup_config cfg fs now = fs) := by
  constructor
  · intro content h
    unfold backup_config
    rw [h]
    exact ⟨fsGet_fsWrite_same fs _ content,
      fun p hp => fsGet_fsWrite_other fs _ content p hp⟩
  · intro h
    unfold backup_config
    rw [h]

/-- Witness for C7 at a concrete filesystem and time. -/
theorem C7_backup_timestamped_write_w :
    fsGet (backup_config cfg0 [(configPath cfg0, "X")]
        "2025.03.04-05:06:07") (backupPath cfg0 "2025.03.04-05:06:07") =
      some "X" ∧
    backup_config cfg0 [(backupPath cfg0 "t", "old")] "t" =
      [(backupPath cfg0 "t", "old")] :=
  ⟨((C7_backup_timestamped_write cfg0 [(configPath cfg0, "X")]
      "2025.03.04-05:06:07").1 "X" rfl).1,
    (C7_backup_timestamped_write cfg0 [(backupPath cfg0 "t", "old")]
      "t").2 (by decide)⟩

/-- C8 (counterexample): the claim "version() resolves at most once
per process; a second call returns the cached string without
re-invoking detection" is false on the code: when the release file
exists but strips to the empty string, the cache guard
`if not self._kernel_version` (line 163) treats the cached "" as
unresolved, so the second call re-invokes detection (the third
component `true` marks a detection run). -/
theorem C8_version_recomputed_counterexample :
    (kernel_version_call vEmpty none).2 = (some "", true) ∧
    (kernel_version_call vEmpty
        ((kernel_version_call vEmpty none).2.1)).2.2 = true := by
  decide

/-- C8 (amended): version resolution is cached only when the resolved
string is non-empty: in that case a second call within the same
process returns the identical string with no detection re-run; an
empty resolved string is treated as unresolved by the truthiness
guard and re-triggers detection on every call.  When neither
detection source is available, resolution returns the sentinel
"unknown" and never fails. -/
theorem C8_version_cached_when_nonempty (e : VEnv) :
    ((kernel_version_call e none).1 ≠ "" →
      kernel_version_call e (kernel_version_call e none).2.1 =
        ((kernel_version_call e none).1,
          (kernel_version_call e none).2.1, false)) ∧
    (e.relPresent = false → e.vmlinuxPresent = false →
      kernel_version_call e none = ("unknown", some "unknown", true)) := by
  constructor
  · intro hne
    have h1 : kernel_version_call e none =
        (detectVersion e, some (detectVersion e), true) := by
      simp [kernel_version_call, cacheTruthy]
    rw [h1] at hne ⊢
    simp only at hne ⊢
    simp [kernel_version_call, cacheTruthy, hne]
  · intro h1 h2
    simp [kernel_version_call, cacheTruthy, detectVersion, h1, h2]

/-- Witness for C8: a normal release file is detected once and served
from the cache on the second call; with no sources the sentinel is
returned. -/
theorem C8_version_cached_when_nonempty_w :
    kernel_version_call vNormal
        (kernel_version_call vNormal none).2.1 =
      ((kernel_version_call vNormal none).1,
        (kernel_version_call vNormal none).2.1, false) ∧
    kernel_version_call vNone none = ("unknown", some "unknown", true) :=
  ⟨(C8_version_cached_when_nonempty vNormal).1 (by decide),
    (C8_version_cached_when_nonempty vNone).2 rfl rfl⟩

end KB

namespace KB

/-- C9 (counterexample): the claim "the artifact-install step is
performed at most once per session, reused for targets after the
first" is false on the code: in a fully successful two-target session
`install_kernel` calls `kernel.install()` unconditionally for each
target (line 418), so `genkernel` (initramfs generation) runs twice,
not at most once. -/
theorem C9_install_rerun_counterexample :
    ((installLoop cfg0 "v" "t"
        [(dev0, envAll), (devB, envAll)]).1).countP
      (headIs "genkernel") = 2 ∧
    ¬(((installLoop cfg0 "v" "t"
        [(dev0, envAll), (devB, envAll)]).1).countP
      (headIs "genkernel") ≤ 1) := by
  decide

/-- C9 (amended): the artifact-install step is re-executed for every
target: there is no already-done guard, so a session over N targets
whose mounts and artifact commands all succeed runs the initramfs
generation (`genkernel`) exactly N times — once per target — rather
than reusing the artifacts produced for the first target. -/
theorem C9_install_step_once_per_target (cfg : KConfig)
    (kv dt : String) (ds : List (Device × Env))
    (h : ∀ p ∈ ds, p.2.mountOk = true ∧ goodArtifact p.2) :
    ((installLoop cfg kv dt ds).1).countP (headIs "genkernel") =
      ds.length :=
  installLoop_genkernel cfg kv dt ds h

/-- Witness for C9 on a concrete two-target session. -/
theorem C9_install_step_once_per_target_w :
    ((installLoop cfg0 "v" "t"
        [(dev0, envAll), (dev1, env1)]).1).countP
      (headIs "genkernel") = 2 :=
  C9_install_step_once_per_target cfg0 "v" "t"
    [(dev0, envAll), (dev1, env1)] (by decide)

lemma deviceRegen_mkdir_mem (d : Device) (env : Env)
    (hc : env.existingDirs.contains
      (BootDevice.findGrubDir d.mountpoint env.existingDirs) = false) :
    Event.makeDirs (BootDevice.findGrubDir d.mountpoint
        env.existingDirs) ∈ (BootDevice.deviceRegen d env).1 := by
  have hc' : BootDevice.findGrubDir d.mountpoint env.existingDirs ∉
      env.existingDirs := by
    simpa using hc
  unfold BootDevice.deviceRegen
  simp [hc']

/-- With a successful mount and successful artifact commands, a
missing grub directory on the device is created before the
regeneration. -/
lemma install_kernel_mkdir_mem (cfg : KConfig) (d : Device)
    (env : Env) (kv dt : String) (hm : env.mountOk = true)
    (hg : goodArtifact env)
    (hc : env.existingDirs.contains
      (BootDevice.findGrubDir d.mountpoint env.existingDirs) = false) :
    Event.makeDirs (BootDevice.findGrubDir d.mountpoint
        env.existingDirs) ∈
      (BootDevice.install_kernel cfg d env kv dt).1 := by
  have hio := install_outcome_good cfg env kv dt hg
  unfold BootDevice.install_kernel
  rcases hi : Kernel.install cfg env kv dt with ⟨esI, oI⟩
  rw [hi] at hio
  simp only at hio
  subst hio
  have hmem := deviceRegen_mkdir_mem d env hc
  simp [BootDevice.umount, BootDevice.mount, BootDevice.show_boot,
    hm, hi, seqE]
  tauto

/-- C10 (confirmed): the host-side configuration regeneration inside
`Kernel.install` (line 308) always targets the fixed path
`/boot/grub/grub.cfg`, for every configuration — in particular
independently of `bootMountpoint`; only the per-device regeneration
uses a discovered path: `find_grub_path` returns `<dir>/grub.cfg`
for the first existing of `<mp>/grub`, `<mp>/boot/grub`, `<mp>/grub2`,
`<mp>/boot/grub2`, falling back to the default `<mp>/grub/grub.cfg`,
whose directory `install_kernel` creates when missing (line 429). -/
theorem C10_host_fixed_device_discovered (cfg : KConfig) (env : Env)
    (kv dt mp : String) (dirs : List String) (d : Device) :
    (Kernel.is_kernel_built env = true → env.modulesInstallCode = 0 →
      env.genkernelCode = 0 →
      Event.run ["grub-mkconfig", "-o", "/boot/grub/grub.cfg"] ∈
        (Kernel.install cfg env kv dt).1) ∧
    (BootDevice.find_grub_path mp dirs =
      pjoin (BootDevice.findGrubDir mp dirs) "grub.cfg") ∧
    (dirs.contains (pjoin mp "grub") = true →
      BootDevice.findGrubDir mp dirs = pjoin mp "grub") ∧
    (dirs.contains (pjoin mp "grub") = false →
      dirs.contains (pjoin mp "boot/grub") = true →
      BootDevice.findGrubDir mp dirs = pjoin mp "boot/grub") ∧
    (dirs.contains (pjoin mp "grub") = false →
      dirs.contains (pjoin mp "boot/grub") = false →
      dirs.contains (pjoin mp "grub2") = true →
      BootDevice.findGrubDir mp dirs = pjoin mp "grub2") ∧
    (dirs.contains (pjoin mp "grub") = false →
      dirs.contains (pjoin mp "boot/grub") = false →
      dirs.contains (pjoin mp "grub2") = false →
      dirs.contains (pjoin mp "boot/grub2") = true →
      BootDevice.findGrubDir mp dirs = pjoin mp "boot/grub2") ∧
    (dirs.contains (pjoin mp "grub") = false →
      dirs.contains (pjoin mp "boot/grub") = false →
      dirs.contains (pjoin mp "grub2") = false →
      dirs.contains (pjoin mp "boot/grub2") = false →
      BootDevice.findGrubDir mp dirs = pjoin mp "grub") ∧
    (env.mountOk = true → goodArtifact env →
      env.existingDirs.contains (BootDevice.findGrubDir d.mountpoint
        env.existingDirs) = false →
      Event.makeDirs (BootDevice.findGrubDir d.mountpoint
          env.existingDirs) ∈
        (BootDevice.install_kernel cfg d env kv dt).1) := by
  refine ⟨fun hb h1 h2 => install_host_regen_mem cfg env kv dt hb h1 h2,
    rfl, ?_, ?_, ?_, ?_, ?_,
    fun hm hg hc => install_kernel_mkdir_mem cfg d env kv dt hm hg hc⟩
  all_goals
    intros
    unfold BootDevice.findGrubDir BootDevice.grubCandidates
    simp_all [List.find?]

/-- Witness for C10: the host regeneration keeps `/boot/grub/grub.cfg`
even when the staging mountpoint is `/mnt/stage`; a device with no
grub directory gets `<mountpoint>/grub` created. -/
theorem C10_host_fixed_device_discovered_w :
    Event.run ["grub-mkconfig", "-o", "/boot/grub/grub.cfg"] ∈
      (Kernel.install cfgMnt envAll "v" "t").1 ∧
    BootDevice.findGrubDir "/mnt/flash" ["/mnt/flash/boot/grub"] =
      pjoin "/mnt/flash" "boot/grub" ∧
    Event.makeDirs (BootDevice.findGrubDir dev1.mountpoint
        envNoGrub.existingDirs) ∈
      (BootDevice.install_kernel cfg0 dev1 envNoGrub "v" "t").1 :=
  ⟨(C10_host_fixed_device_discovered cfgMnt envAll "v" "t" "x" []
      dev1).1 rfl rfl rfl,
    (C10_host_fixed_device_discovered cfg0 envAll "v" "t" "/mnt/flash"
      ["/mnt/flash/boot/grub"] dev1).2.2.2.1 (by decide) (by decide),
    (C10_host_fixed_device_discovered cfg0 envNoGrub "v" "t" "x" []
      dev1).2.2.2.2.2.2.2 rfl (by decide) (by decide)⟩

end KB
